import Mathlib

/-!
Shallow embedding of `mojo/edk/system/channel_endpoint.cc` (class
`ChannelEndpoint`) and proofs about it.

Modelling conventions:
* `ChannelEndpointId` is a `Nat`; the default-constructed id is `0` and
  `is_valid()` is `≠ 0` (the source's default id is the invalid one).
* Clients and channels are identified by abstract `Nat` tags; the stored
  pointers `client_` and `channel_` become `Option Nat` (`none` = null).
* The channel's `WriteMessage` is external; its success/failure behaviour is
  an oracle `writeOk : MessageInTransit → Bool` passed to each operation that
  writes.  Every call the endpoint makes on the channel is recorded as a
  `ChannelEvent`, in call order, so ordering claims are about event traces.
* Calls the endpoint makes on its client are recorded as `ClientEvent`s
  (for `OnDetachFromChannel`) or `DeliveryAttempt`s (for the client's
  `OnReadMessage`).
* `DCHECK`s are debug assertions compiled out of release builds; they appear
  as hypotheses of theorems, not inside the definitions.
* The retry loop of `ChannelEndpoint::OnReadMessage` releases the lock before
  calling the client, so the endpoint state it reads can change between
  iterations (concurrent `ReplaceClient` / detach).  It is modelled by a
  schedule: a list of `ReadIter`s, one per loop iteration, giving the
  endpoint state snapshotted under the lock at that iteration together with
  the boolean the snapshotted client returns from `OnReadMessage`.  The loop
  itself never mutates the endpoint's fields, which matches the source.
-/

namespace ChannelEndpoint

/-- Model of `MessageInTransit`: an abstract payload plus the two routing ids
(`source_id`, `destination_id`) stamped by `WriteMessageNoLock`. -/
structure MessageInTransit where
  payload : Nat
  source_id : Nat
  destination_id : Nat
deriving DecidableEq, Repr

/-- Model of the fields of `ChannelEndpoint` guarded by `lock_`. -/
structure EndpointState where
  client : Option Nat
  client_port : Nat
  channel : Option Nat
  local_id : Nat
  remote_id : Nat
  channel_message_queue : List MessageInTransit
  is_detached_from_channel : Bool
deriving DecidableEq, Repr

/-- Calls the endpoint makes on the attached `Channel`, in call order. -/
inductive ChannelEvent where
  | writeMessage (m : MessageInTransit)
  | detachEndpoint (local_id remote_id : Nat)
deriving DecidableEq, Repr

/-- Calls the endpoint makes on a `ChannelEndpointClient` during
`DetachFromChannel`. -/
inductive ClientEvent where
  | onDetachFromChannel (client : Nat) (client_port : Nat)
deriving DecidableEq, Repr

/-- Sets `source_id`/`destination_id` on a message, as lines 184-185 of the
source do with `local_id_` and `remote_id_`. -/
def stampIds (local_id remote_id : Nat) (m : MessageInTransit) : MessageInTransit :=
  { m with source_id := local_id, destination_id := remote_id }

/-- Model of `ChannelEndpoint::WriteMessageNoLock`: stamp the message with the
endpoint's routing ids and hand it to `Channel::WriteMessage`, whose boolean
result is given by the oracle `writeOk`.  Returns the result and the channel
call made.  (`SerializeAndCloseDispatchers` only affects the message's
serialized handles, which are outside this model.) -/
def WriteMessageNoLock (writeOk : MessageInTransit → Bool) (s : EndpointState)
    (m : MessageInTransit) : Bool × List ChannelEvent :=
  let stamped := stampIds s.local_id s.remote_id m
  (writeOk stamped, [ChannelEvent.writeMessage stamped])

/-- Model of `ChannelEndpoint::EnqueueMessage`: with no channel, append to
`channel_message_queue_` and return `true`; with a channel, forward through
`WriteMessageNoLock` and return its result.  Result: (return value, new
state, channel calls made). -/
def EnqueueMessage (writeOk : MessageInTransit → Bool) (s : EndpointState)
    (m : MessageInTransit) : Bool × EndpointState × List ChannelEvent :=
  match s.channel with
  | none =>
    (true, { s with channel_message_queue := s.channel_message_queue ++ [m] }, [])
  | some _ =>
    ((WriteMessageNoLock writeOk s m).1, s, (WriteMessageNoLock writeOk s m).2)

/-- Model of `ChannelEndpoint::ReplaceClient`: store the new client and port
and return `!is_detached_from_channel_`. -/
def ReplaceClient (s : EndpointState) (client : Nat) (client_port : Nat) :
    Bool × EndpointState :=
  (!s.is_detached_from_channel,
   { s with client := some client, client_port := client_port })

/-- Model of `ChannelEndpoint::ResetChannelNoLock`: null the channel,
invalidate both ids, set the terminal latch. -/
def ResetChannelNoLock (s : EndpointState) : EndpointState :=
  { s with
    channel := none
    local_id := 0
    remote_id := 0
    is_detached_from_channel := true }

/-- Model of `ChannelEndpoint::DetachFromClient`: clear the client; if a
channel is attached, call `Channel::DetachEndpoint` with the current routing
ids and reset the channel side. -/
def DetachFromClient (s : EndpointState) : EndpointState × List ChannelEvent :=
  let s1 : EndpointState := { s with client := none }
  match s1.channel with
  | none => (s1, [])
  | some _ =>
    (ResetChannelNoLock s1, [ChannelEvent.detachEndpoint s1.local_id s1.remote_id])

/-- Channel calls made by the drain loop of `AttachAndRun` (lines 84-87):
each queued message goes through `WriteMessageNoLock`; a `false` result is
only logged (`LOG_IF(WARNING, ...)`), so the loop continues regardless. -/
def drainQueue (writeOk : MessageInTransit → Bool) (s : EndpointState) :
    List MessageInTransit → List ChannelEvent
  | [] => []
  | m :: rest => (WriteMessageNoLock writeOk s m).2 ++ drainQueue writeOk s rest

/-- Model of `ChannelEndpoint::AttachAndRun`: record the channel and ids,
drain the pending queue in FIFO order through `WriteMessageNoLock`, then, if
no client is attached, call `Channel::DetachEndpoint` and reset. -/
def AttachAndRun (writeOk : MessageInTransit → Bool) (s : EndpointState)
    (channel : Nat) (local_id remote_id : Nat) : EndpointState × List ChannelEvent :=
  let s1 : EndpointState :=
    { s with channel := some channel, local_id := local_id, remote_id := remote_id }
  let drained := drainQueue writeOk s1 s1.channel_message_queue
  let s2 : EndpointState := { s1 with channel_message_queue := [] }
  match s2.client with
  | none =>
    (ResetChannelNoLock s2, drained ++ [ChannelEvent.detachEndpoint local_id remote_id])
  | some _ => (s2, drained)

/-- Model of `ChannelEndpoint::DetachFromChannel`: under the lock, snapshot
the client (if any) and reset the channel side unless a racing
`DetachFromClient` already did; outside the lock, notify the snapshotted
client via `OnDetachFromChannel`.  Result: (new state, client calls made). -/
def DetachFromChannel (s : EndpointState) : EndpointState × List ClientEvent :=
  let notifications : List ClientEvent :=
    match s.client with
    | some c => [ClientEvent.onDetachFromChannel c s.client_port]
    | none => []
  let s1 : EndpointState :=
    match s.channel with
    | some _ => ResetChannelNoLock s
    | none => s
  (s1, notifications)

/-- One call to the client's `OnReadMessage` made by the retry loop of
`ChannelEndpoint::OnReadMessage`: which client and port were snapshotted, the
message handed over, and the boolean the client returned. -/
structure DeliveryAttempt where
  client : Nat
  client_port : Nat
  message : MessageInTransit
  accepted : Bool
deriving DecidableEq, Repr

/-- One iteration of the retry loop: the endpoint state seen under the lock
at that iteration (it may differ between iterations because the lock is
released around the client call), and the boolean the snapshotted client
returns from `OnReadMessage`. -/
structure ReadIter where
  snap : EndpointState
  accept : Bool
deriving DecidableEq, Repr

/-- Outcome of `ChannelEndpoint::OnReadMessage`. -/
inductive ReadResult where
  | dropped
  | consumed (client : Nat) (client_port : Nat)
  | pending
deriving DecidableEq, Repr

/-- Model of the retry loop of `ChannelEndpoint::OnReadMessage` (lines
110-134), driven by the schedule of per-iteration snapshots.  If the snapshot
has no channel or no client, the message is discarded (`dropped`) with no
client call.  Otherwise the snapshotted client's `OnReadMessage` is called;
on `true` the loop releases the message and stops (`consumed`), on `false`
it yields and retries with the next snapshot.  `pending` means the schedule
ended with the loop still running.  Result: (outcome, client calls made). -/
def onReadMessageLoop (m : MessageInTransit) :
    List ReadIter → ReadResult × List DeliveryAttempt
  | [] => (ReadResult.pending, [])
  | it :: rest =>
    match it.snap.channel, it.snap.client with
    | none, _ => (ReadResult.dropped, [])
    | some _, none => (ReadResult.dropped, [])
    | some _, some c =>
      if it.accept then
        (ReadResult.consumed c it.snap.client_port,
         [⟨c, it.snap.client_port, m, true⟩])
      else
        ((onReadMessageLoop m rest).1,
         ⟨c, it.snap.client_port, m, false⟩ :: (onReadMessageLoop m rest).2)

/-- Messages written to the channel, extracted from a channel-call trace in
order, ignoring `DetachEndpoint` calls. -/
def writeEvents : List ChannelEvent → List MessageInTransit
  | [] => []
  | ChannelEvent.writeMessage m :: rest => m :: writeEvents rest
  | ChannelEvent.detachEndpoint _ _ :: rest => writeEvents rest

/-- Number of delivery attempts the client accepted (returned `true` from
`OnReadMessage`). -/
def successCount (tr : List DeliveryAttempt) : Nat :=
  tr.countP (fun a => a.accepted)

/-- Runs `EnqueueMessage` on each message of a list in order, accumulating
the state and the channel calls made. -/
def enqueueAll (writeOk : MessageInTransit → Bool) :
    EndpointState → List MessageInTransit → EndpointState × List ChannelEvent
  | s, [] => (s, [])
  | s, m :: rest =>
    ((enqueueAll writeOk (EnqueueMessage writeOk s m).2.1 rest).1,
     (EnqueueMessage writeOk s m).2.2 ++
       (enqueueAll writeOk (EnqueueMessage writeOk s m).2.1 rest).2)

/-- State invariants of the endpoint: the channel is attached iff both
routing ids are valid (and the two ids are set and cleared together), and
once the terminal `is_detached_from_channel` latch is set the channel stays
null. -/
def Invariant (s : EndpointState) : Prop :=
  ((s.channel.isSome = true ∧ s.local_id ≠ 0 ∧ s.remote_id ≠ 0) ∨
   (s.channel = none ∧ s.local_id = 0 ∧ s.remote_id = 0)) ∧
  (s.is_detached_from_channel = true → s.channel = none)

instance decidableInvariant (s : EndpointState) : Decidable (Invariant s) := by
  unfold Invariant
  exact inferInstance

/-- The public mutating operations of `ChannelEndpoint`. -/
inductive Op where
  | enqueueMessage (m : MessageInTransit)
  | replaceClient (client : Nat) (client_port : Nat)
  | detachFromClient
  | attachAndRun (channel : Nat) (local_id remote_id : Nat)
  | detachFromChannel
  | onReadMessage
deriving DecidableEq, Repr

/-- Preconditions of each operation, from the source's `DCHECK`s and the
documented contract: `ReplaceClient` needs an existing, different client;
`DetachFromClient` needs a client; `AttachAndRun` needs valid ids and an
endpoint that has never been attached (channel axis in its initial state:
`DCHECK(!channel_)`, both ids invalid, and attachment is only permitted from
the unattached state, so the terminal latch is unset). -/
def Op.pre (s : EndpointState) : Op → Prop
  | .enqueueMessage _ => True
  | .replaceClient c p => s.client.isSome = true ∧ (some c ≠ s.client ∨ p ≠ s.client_port)
  | .detachFromClient => s.client.isSome = true
  | .attachAndRun _ lid rid =>
    lid ≠ 0 ∧ rid ≠ 0 ∧ s.channel = none ∧ s.local_id = 0 ∧ s.remote_id = 0 ∧
      s.is_detached_from_channel = false
  | .detachFromChannel => True
  | .onReadMessage => True

instance decidableOpPre (s : EndpointState) (op : Op) : Decidable (op.pre s) := by
  cases op <;> (unfold Op.pre; exact inferInstance)

/-- State transition of each operation (`OnReadMessage` never mutates the
endpoint's fields). -/
def Op.apply (writeOk : MessageInTransit → Bool) (s : EndpointState) : Op → EndpointState
  | .enqueueMessage m => (EnqueueMessage writeOk s m).2.1
  | .replaceClient c p => (ReplaceClient s c p).2
  | .detachFromClient => (DetachFromClient s).1
  | .attachAndRun ch lid rid => (AttachAndRun writeOk s ch lid rid).1
  | .detachFromChannel => (DetachFromChannel s).1
  | .onReadMessage => s

/-- Example message used to exercise the model on concrete inputs. -/
def exMsg : MessageInTransit := ⟨42, 0, 0⟩

/-- Second example message. -/
def exMsg2 : MessageInTransit := ⟨43, 0, 0⟩

/-- Third example message. -/
def exMsg3 : MessageInTransit := ⟨44, 0, 0⟩

/-- A freshly constructed endpoint: client 1 on port 0, no channel, invalid
ids, empty queue (constructor with a client and no queue). -/
def exUnattached : EndpointState := ⟨some 1, 0, none, 0, 0, [], false⟩

/-- An endpoint attached to channel 9 with routing ids (5, 7) and client 1 on
port 0. -/
def exAttached : EndpointState := ⟨some 1, 0, some 9, 5, 7, [], false⟩

/-- An endpoint that was attached and then detached from the channel: client
still present, channel null, ids invalid, terminal latch set. -/
def exDetached : EndpointState := ⟨some 1, 0, none, 0, 0, [], true⟩

/-- A client-less endpoint constructed with a pre-populated message queue
(constructor with a null client and a queue). -/
def exQueued : EndpointState := ⟨none, 0, none, 0, 0, [exMsg, exMsg2], false⟩

/-- A two-iteration schedule for the `OnReadMessage` retry loop: client 1 is
snapshotted but replaced before delivery (so it returns `false`), and the
retry delivers to the then-current client 2 on port 1. -/
def exSchedule : List ReadIter :=
  [⟨exAttached, false⟩, ⟨{ exAttached with client := some 2, client_port := 1 }, true⟩]

/-! Helper lemmas. -/

theorem writeEvents_append (a b : List ChannelEvent) :
    writeEvents (a ++ b) = writeEvents a ++ writeEvents b := by
  induction a with
  | nil => simp [writeEvents]
  | cons e rest ih => cases e <;> simp [writeEvents, ih]

theorem writeEvents_map_write (f : MessageInTransit → MessageInTransit)
    (l : List MessageInTransit) :
    writeEvents (l.map (fun m => ChannelEvent.writeMessage (f m))) = l.map f := by
  induction l with
  | nil => simp [writeEvents]
  | cons m rest ih => simp [writeEvents, ih]

theorem drainQueue_eq_map (writeOk : MessageInTransit → Bool) (s : EndpointState)
    (q : List MessageInTransit) :
    drainQueue writeOk s q =
      q.map (fun m => ChannelEvent.writeMessage (stampIds s.local_id s.remote_id m)) := by
  induction q with
  | nil => simp [drainQueue]
  | cons m rest ih => simp [drainQueue, WriteMessageNoLock, ih]

theorem enqueueAll_unattached (writeOk : MessageInTransit → Bool)
    (ms : List MessageInTransit) :
    ∀ s : EndpointState, s.channel = none →
      enqueueAll writeOk s ms =
        ({ s with channel_message_queue := s.channel_message_queue ++ ms }, []) := by
  induction ms with
  | nil =>
    intro s h
    simp [enqueueAll]
  | cons m rest ih =>
    intro s h
    have hstep : (EnqueueMessage writeOk s m).2.1 =
        { s with channel_message_queue := s.channel_message_queue ++ [m] } := by
      simp [EnqueueMessage, h]
    have hev : (EnqueueMessage writeOk s m).2.2 = [] := by
      simp [EnqueueMessage, h]
    simp only [enqueueAll, hstep, hev]
    rw [ih _ (by simp [h])]
    simp

theorem enqueueAll_attached (writeOk : MessageInTransit → Bool)
    (ms : List MessageInTransit) :
    ∀ s : EndpointState, s.channel.isSome = true →
      enqueueAll writeOk s ms =
        (s, ms.map (fun m =>
          ChannelEvent.writeMessage (stampIds s.local_id s.remote_id m))) := by
  induction ms with
  | nil =>
    intro s h
    simp [enqueueAll]
  | cons m rest ih =>
    intro s h
    obtain ⟨ch, hch⟩ := Option.isSome_iff_exists.mp h
    have hstep : (EnqueueMessage writeOk s m).2.1 = s := by
      simp [EnqueueMessage, hch]
    have hev : (EnqueueMessage writeOk s m).2.2 =
        [ChannelEvent.writeMessage (stampIds s.local_id s.remote_id m)] := by
      simp [EnqueueMessage, hch, WriteMessageNoLock]
    simp only [enqueueAll, hstep, hev]
    rw [ih s h]
    simp

theorem attachAndRun_with_client (writeOk : MessageInTransit → Bool)
    (s : EndpointState) (ch lid rid : Nat) (hcl : s.client.isSome = true) :
    AttachAndRun writeOk s ch lid rid =
      ({ s with channel := some ch, local_id := lid, remote_id := rid,
                channel_message_queue := [] },
       s.channel_message_queue.map (fun m =>
         ChannelEvent.writeMessage (stampIds lid rid m))) := by
  obtain ⟨c, hc⟩ := Option.isSome_iff_exists.mp hcl
  simp [AttachAndRun, hc, drainQueue_eq_map]

theorem onReadMessageLoop_cons_no_channel (m : MessageInTransit) (it : ReadIter)
    (rest : List ReadIter) (h : it.snap.channel = none) :
    onReadMessageLoop m (it :: rest) = (ReadResult.dropped, []) := by
  obtain ⟨snap, acc⟩ := it
  obtain ⟨cl, cp, ch, lid, rid, q, lat⟩ := snap
  simp only at h
  subst h
  rfl

theorem onReadMessageLoop_cons_no_client (m : MessageInTransit) (it : ReadIter)
    (rest : List ReadIter) (ch : Nat) (hch : it.snap.channel = some ch)
    (hcl : it.snap.client = none) :
    onReadMessageLoop m (it :: rest) = (ReadResult.dropped, []) := by
  obtain ⟨snap, acc⟩ := it
  obtain ⟨cl, cp, ch₀, lid, rid, q, lat⟩ := snap
  simp only at hch hcl
  subst hch
  subst hcl
  rfl

theorem onReadMessageLoop_cons_accept (m : MessageInTransit) (it : ReadIter)
    (rest : List ReadIter) (ch c : Nat) (hch : it.snap.channel = some ch)
    (hcl : it.snap.client = some c) (ha : it.accept = true) :
    onReadMessageLoop m (it :: rest) =
      (ReadResult.consumed c it.snap.client_port,
       [⟨c, it.snap.client_port, m, true⟩]) := by
  obtain ⟨snap, acc⟩ := it
  obtain ⟨cl, cp, ch₀, lid, rid, q, lat⟩ := snap
  simp only at hch hcl ha
  subst hch
  subst hcl
  subst ha
  rfl

theorem onReadMessageLoop_cons_reject (m : MessageInTransit) (it : ReadIter)
    (rest : List ReadIter) (ch c : Nat) (hch : it.snap.channel = some ch)
    (hcl : it.snap.client = some c) (ha : it.accept = false) :
    onReadMessageLoop m (it :: rest) =
      ((onReadMessageLoop m rest).1,
       ⟨c, it.snap.client_port, m, false⟩ :: (onReadMessageLoop m rest).2) := by
  obtain ⟨snap, acc⟩ := it
  obtain ⟨cl, cp, ch₀, lid, rid, q, lat⟩ := snap
  simp only at hch hcl ha
  subst hch
  subst hcl
  subst ha
  rfl

theorem loop_successCount_le_one (m : MessageInTransit) (iters : List ReadIter) :
    successCount (onReadMessageLoop m iters).2 ≤ 1 := by
  induction iters with
  | nil => simp [onReadMessageLoop, successCount]
  | cons it rest ih =>
    rcases hch : it.snap.channel with _ | ch
    · simp [onReadMessageLoop_cons_no_channel m it rest hch, successCount]
    · rcases hcl : it.snap.client with _ | c
      · simp [onReadMessageLoop_cons_no_client m it rest ch hch hcl, successCount]
      · rcases ha : it.accept
        · rw [onReadMessageLoop_cons_reject m it rest ch c hch hcl ha]
          simpa [successCount, List.countP_cons] using ih
        · simp [onReadMessageLoop_cons_accept m it rest ch c hch hcl ha, successCount,
                List.countP_cons]

theorem loop_consumed_last (m : MessageInTransit) (iters : List ReadIter) (c p : Nat)
    (h : (onReadMessageLoop m iters).1 = ReadResult.consumed c p) :
    ∃ pre, (onReadMessageLoop m iters).2 = pre ++ [⟨c, p, m, true⟩] ∧
      ∀ a ∈ pre, a.accepted = false := by
  induction iters with
  | nil => simp [onReadMessageLoop] at h
  | cons it rest ih =>
    rcases hch : it.snap.channel with _ | ch
    · rw [onReadMessageLoop_cons_no_channel m it rest hch] at h
      simp at h
    · rcases hcl : it.snap.client with _ | c₀
      · rw [onReadMessageLoop_cons_no_client m it rest ch hch hcl] at h
        simp at h
      · rcases ha : it.accept
        · rw [onReadMessageLoop_cons_reject m it rest ch c₀ hch hcl ha] at h ⊢
          obtain ⟨pre, hpre, hfalse⟩ := ih h
          refine ⟨⟨c₀, it.snap.client_port, m, false⟩ :: pre, ?_, ?_⟩
          · simp [hpre]
          · intro a ha'
            rcases List.mem_cons.mp ha' with rfl | hmem
            · rfl
            · exact hfalse a hmem
        · rw [onReadMessageLoop_cons_accept m it rest ch c₀ hch hcl ha] at h ⊢
          simp only [ReadResult.consumed.injEq] at h
          obtain ⟨rfl, rfl⟩ := h
          exact ⟨[], by simp, by simp⟩

theorem loop_dropped_means_absent (m : MessageInTransit) (iters : List ReadIter)
    (h : (onReadMessageLoop m iters).1 = ReadResult.dropped) :
    (∀ a ∈ (onReadMessageLoop m iters).2, a.accepted = false) ∧
    ∃ it ∈ iters, it.snap.channel = none ∨ it.snap.client = none := by
  induction iters with
  | nil => simp [onReadMessageLoop] at h
  | cons it rest ih =>
    rcases hch : it.snap.channel with _ | ch
    · rw [onReadMessageLoop_cons_no_channel m it rest hch]
      exact ⟨by simp, it, List.mem_cons_self it rest, Or.inl hch⟩
    · rcases hcl : it.snap.client with _ | c
      · rw [onReadMessageLoop_cons_no_client m it rest ch hch hcl]
        exact ⟨by simp, it, List.mem_cons_self it rest, Or.inr hcl⟩
      · rcases ha : it.accept
        · rw [onReadMessageLoop_cons_reject m it rest ch c hch hcl ha] at h ⊢
          obtain ⟨hfalse, it', hmem, habs⟩ := ih h
          refine ⟨?_, it', List.mem_cons_of_mem it hmem, habs⟩
          intro a ha'
          rcases List.mem_cons.mp ha' with rfl | hmem'
          · rfl
          · exact hfalse a hmem'
        · rw [onReadMessageLoop_cons_accept m it rest ch c hch hcl ha] at h
          simp at h

theorem loop_pending_all_false (m : MessageInTransit) (iters : List ReadIter)
    (h : (onReadMessageLoop m iters).1 = ReadResult.pending) :
    ∀ a ∈ (onReadMessageLoop m iters).2, a.accepted = false := by
  induction iters with
  | nil => simp [onReadMessageLoop]
  | cons it rest ih =>
    rcases hch : it.snap.channel with _ | ch
    · rw [onReadMessageLoop_cons_no_channel m it rest hch]
      simp
    · rcases hcl : it.snap.client with _ | c
      · rw [onReadMessageLoop_cons_no_client m it rest ch hch hcl]
        simp
      · rcases ha : it.accept
        · rw [onReadMessageLoop_cons_reject m it rest ch c hch hcl ha] at h ⊢
          intro a ha'
          rcases List.mem_cons.mp ha' with rfl | hmem
          · rfl
          · exact ih h a hmem
        · rw [onReadMessageLoop_cons_accept m it rest ch c hch hcl ha] at h
          simp at h

/-! Claim theorems. -/

/-- C1: every message enqueued while the endpoint is unattached is written to
the channel by `AttachAndRun` in exactly the order it was enqueued (after any
messages already in the constructor-supplied queue), and all of them are
written before any message enqueued after attachment. -/
theorem fifo_preservation (writeOk : MessageInTransit → Bool) (s : EndpointState)
    (ms post : List MessageInTransit) (ch lid rid : Nat)
    (hch : s.channel = none) (hcl : s.client.isSome = true) :
    writeEvents
      ((enqueueAll writeOk s ms).2 ++
       (AttachAndRun writeOk (enqueueAll writeOk s ms).1 ch lid rid).2 ++
       (enqueueAll writeOk
         (AttachAndRun writeOk (enqueueAll writeOk s ms).1 ch lid rid).1 post).2) =
      (s.channel_message_queue ++ ms ++ post).map (stampIds lid rid) := by
  rw [enqueueAll_unattached writeOk ms s hch]
  rw [attachAndRun_with_client writeOk _ ch lid rid (by simpa using hcl)]
  rw [enqueueAll_attached writeOk post _ (by simp)]
  simp [writeEvents_append, writeEvents_map_write]

/-- C1 witness: two messages enqueued on a fresh endpoint, then attached with
ids (5, 7) on channel 9, then one more message enqueued. -/
theorem fifo_preservation_witness :
    writeEvents
      ((enqueueAll (fun _ => true) exUnattached [exMsg, exMsg2]).2 ++
       (AttachAndRun (fun _ => true)
         (enqueueAll (fun _ => true) exUnattached [exMsg, exMsg2]).1 9 5 7).2 ++
       (enqueueAll (fun _ => true)
         (AttachAndRun (fun _ => true)
           (enqueueAll (fun _ => true) exUnattached [exMsg, exMsg2]).1 9 5 7).1
         [exMsg3]).2) =
      (exUnattached.channel_message_queue ++ [exMsg, exMsg2] ++ [exMsg3]).map
        (stampIds 5 7) :=
  fifo_preservation (fun _ => true) exUnattached [exMsg, exMsg2] [exMsg3] 9 5 7
    rfl rfl

/-- C2: `EnqueueMessage` on an unattached endpoint appends the message to the
pending queue and returns `true`; on an attached endpoint it stamps the
message's source id with `local_id` and destination id with `remote_id`,
makes exactly one `Channel::WriteMessage` call with the stamped message, and
returns that write's boolean result. -/
theorem enqueueMessage_spec (writeOk : MessageInTransit → Bool)
    (s : EndpointState) (m : MessageInTransit) :
    (s.channel = none →
      EnqueueMessage writeOk s m =
        (true, { s with channel_message_queue := s.channel_message_queue ++ [m] },
         [])) ∧
    (s.channel.isSome = true →
      EnqueueMessage writeOk s m =
        (writeOk (stampIds s.local_id s.remote_id m), s,
         [ChannelEvent.writeMessage (stampIds s.local_id s.remote_id m)])) := by
  constructor
  · intro h
    simp [EnqueueMessage, h]
  · intro h
    obtain ⟨ch, hch⟩ := Option.isSome_iff_exists.mp h
    simp [EnqueueMessage, hch, WriteMessageNoLock]

/-- C2 witness: on the attached endpoint with ids (5, 7) and a channel whose
write fails, the stamped message is handed over and the `false` result is
propagated. -/
theorem enqueueMessage_spec_witness :
    EnqueueMessage (fun _ => false) exAttached exMsg =
      (false, exAttached, [ChannelEvent.writeMessage ⟨42, 5, 7⟩]) := by
  have h := (enqueueMessage_spec (fun _ => false) exAttached exMsg).2 rfl
  rw [h]
  decide

/-- C3: in any run of the `OnReadMessage` retry loop, at most one delivery
attempt succeeds; if the loop consumes the message, the successful attempt is
the last one and every earlier attempt (a stale snapshot) returned `false`
and was retried; the message is discarded only when a snapshot has no channel
or no client, never merely because an attempt returned `false`. -/
theorem onReadMessage_no_double_delivery (m : MessageInTransit)
    (iters : List ReadIter) :
    successCount (onReadMessageLoop m iters).2 ≤ 1 ∧
    (∀ c p, (onReadMessageLoop m iters).1 = ReadResult.consumed c p →
      ∃ pre, (onReadMessageLoop m iters).2 = pre ++ [⟨c, p, m, true⟩] ∧
        ∀ a ∈ pre, a.accepted = false) ∧
    ((onReadMessageLoop m iters).1 = ReadResult.dropped →
      (∀ a ∈ (onReadMessageLoop m iters).2, a.accepted = false) ∧
      ∃ it ∈ iters, it.snap.channel = none ∨ it.snap.client = none) ∧
    ((onReadMessageLoop m iters).1 = ReadResult.pending →
      ∀ a ∈ (onReadMessageLoop m iters).2, a.accepted = false) :=
  ⟨loop_successCount_le_one m iters,
   fun c p h => loop_consumed_last m iters c p h,
   fun h => loop_dropped_means_absent m iters h,
   fun h => loop_pending_all_false m iters h⟩

/-- C3 witness: with the snapshotted client 1 replaced before delivery (its
call returns `false`), the retry delivers to the then-current client 2 on
port 1 and the failed attempt is the only earlier one. -/
theorem onReadMessage_no_double_delivery_witness :
    (onReadMessageLoop exMsg exSchedule).1 = ReadResult.consumed 2 1 ∧
    ∃ pre, (onReadMessageLoop exMsg exSchedule).2 = pre ++ [⟨2, 1, exMsg, true⟩] ∧
      ∀ a ∈ pre, a.accepted = false :=
  ⟨by decide,
   (onReadMessage_no_double_delivery exMsg exSchedule).2.1 2 1 (by decide)⟩

/-- C4: after a detach has already completed via the client-initiated path
(the race of both detach directions, which the source comments on at lines
149-151), a `DetachFromChannel` call changes nothing: the state it leaves is
exactly the terminal state of the single detach (channel absent, ids invalid,
latch set), the `DCHECK(is_detached_from_channel_)` it runs holds, and it
makes no client notification; moreover running `DetachFromChannel` twice also
converges to the state a single call produces. -/
theorem detachFromChannel_idempotent (s : EndpointState)
    (hcl : s.client.isSome = true) (hch : s.channel.isSome = true) :
    DetachFromChannel (DetachFromClient s).1 = ((DetachFromClient s).1, []) ∧
    (DetachFromClient s).1.is_detached_from_channel = true ∧
    (DetachFromClient s).1.channel = none ∧
    (DetachFromClient s).1.local_id = 0 ∧
    (DetachFromClient s).1.remote_id = 0 ∧
    (DetachFromChannel (DetachFromChannel s).1).1 = (DetachFromChannel s).1 := by
  obtain ⟨ch, hc⟩ := Option.isSome_iff_exists.mp hch
  refine ⟨?_, ?_, ?_, ?_, ?_, ?_⟩ <;>
    simp [DetachFromClient, DetachFromChannel, ResetChannelNoLock, hc]

/-- C4 witness: on the attached example endpoint, a channel-side detach after
a completed client-side detach is a strict no-op. -/
theorem detachFromChannel_idempotent_witness :
    DetachFromChannel (DetachFromClient exAttached).1 =
      ((DetachFromClient exAttached).1, []) :=
  (detachFromChannel_idempotent exAttached rfl rfl).1

/-- C5: every operation, invoked under its precondition, preserves the state
invariants — the channel is attached iff both routing ids are valid — and the
terminal latch is one-way: once `is_detached_from_channel` is set, no
operation clears it or re-establishes the channel or valid ids. -/
theorem operations_preserve_invariant (writeOk : MessageInTransit → Bool)
    (s : EndpointState) (op : Op) (hpre : op.pre s) (hinv : Invariant s) :
    Invariant (op.apply writeOk s) ∧
    (s.is_detached_from_channel = true →
      (op.apply writeOk s).is_detached_from_channel = true ∧
      (op.apply writeOk s).channel = none ∧
      (op.apply writeOk s).local_id = 0 ∧
      (op.apply writeOk s).remote_id = 0) := by
  obtain ⟨cl, cp, ch, lid, rid, q, lat⟩ := s
  cases lat with
  | false =>
    refine ⟨?_, by intro hd; simp at hd⟩
    cases op with
    | enqueueMessage m =>
      rcases ch with _ | ch
      · simp [Op.apply, EnqueueMessage, Invariant] at hinv ⊢
        tauto
      · simpa [Op.apply, EnqueueMessage] using hinv
    | replaceClient c p =>
      simp [Op.apply, ReplaceClient, Invariant] at hinv ⊢
      tauto
    | detachFromClient =>
      rcases ch with _ | ch
      · simp [Op.apply, DetachFromClient, Invariant] at hinv ⊢
        tauto
      · simp [Op.apply, DetachFromClient, ResetChannelNoLock, Invariant]
    | attachAndRun ch2 lid2 rid2 =>
      obtain ⟨h1, h2, h3, h4, h5, h6⟩ := hpre
      simp only at h3 h4 h5
      subst h3
      subst h4
      subst h5
      rcases cl with _ | c
      · simp [Op.apply, AttachAndRun, ResetChannelNoLock, Invariant]
      · simp [Op.apply, AttachAndRun, Invariant, h1, h2]
    | detachFromChannel =>
      rcases ch with _ | ch
      · simpa [Op.apply, DetachFromChannel] using hinv
      · simp [Op.apply, DetachFromChannel, ResetChannelNoLock, Invariant]
    | onReadMessage =>
      simpa [Op.apply] using hinv
  | true =>
    have hch : ch = none := by simpa using hinv.2 rfl
    subst hch
    have hids : lid = 0 ∧ rid = 0 := by
      simp [Invariant] at hinv
      tauto
    obtain ⟨hl, hr⟩ := hids
    subst hl
    subst hr
    cases op with
    | enqueueMessage m =>
      constructor
      · simp [Op.apply, EnqueueMessage, Invariant]
      · intro _
        simp [Op.apply, EnqueueMessage]
    | replaceClient c p =>
      constructor
      · simp [Op.apply, ReplaceClient, Invariant]
      · intro _
        simp [Op.apply, ReplaceClient]
    | detachFromClient =>
      constructor
      · simp [Op.apply, DetachFromClient, Invariant]
      · intro _
        simp [Op.apply, DetachFromClient]
    | attachAndRun ch2 lid2 rid2 =>
      obtain ⟨h1, h2, h3, h4, h5, h6⟩ := hpre
      simp at h6
    | detachFromChannel =>
      constructor
      · simp [Op.apply, DetachFromChannel, Invariant]
      · intro _
        simp [Op.apply, DetachFromChannel]
    | onReadMessage =>
      constructor
      · simp [Op.apply, Invariant]
      · intro _
        simp [Op.apply]

/-- C5 witness: a channel-side detach on the attached example endpoint
satisfies its (trivial) precondition, and invariant preservation holds
there. -/
theorem operations_preserve_invariant_witness :
    Invariant (Op.detachFromChannel.apply (fun _ => true) exAttached) := by
  have h := operations_preserve_invariant (fun _ => true) exAttached
    Op.detachFromChannel trivial (by decide)
  exact h.1

/-- C6: `DetachFromClient` on an endpoint with a client clears the client
and, when a channel is attached, makes exactly one `Channel::DetachEndpoint`
call carrying the endpoint's `(local_id, remote_id)` and then resets the
channel side, leaving both ids invalid; with no channel attached it only
clears the client. -/
theorem detachFromClient_spec (s : EndpointState) (hcl : s.client.isSome = true) :
    (s.channel.isSome = true →
      (DetachFromClient s).2 =
        [ChannelEvent.detachEndpoint s.local_id s.remote_id] ∧
      (DetachFromClient s).1.client = none ∧
      (DetachFromClient s).1.channel = none ∧
      (DetachFromClient s).1.local_id = 0 ∧
      (DetachFromClient s).1.remote_id = 0 ∧
      (DetachFromClient s).1.is_detached_from_channel = true ∧
      (DetachFromClient s).1.channel_message_queue = s.channel_message_queue ∧
      (DetachFromClient s).1.client_port = s.client_port) ∧
    (s.channel = none →
      DetachFromClient s = ({ s with client := none }, [])) := by
  constructor
  · intro h
    obtain ⟨ch, hch⟩ := Option.isSome_iff_exists.mp h
    simp [DetachFromClient, hch, ResetChannelNoLock]
  · intro h
    simp [DetachFromClient, h]

/-- C6 witness: detaching the client of the attached example endpoint emits
one `DetachEndpoint(5, 7)` call and invalidates the ids. -/
theorem detachFromClient_spec_witness :
    (DetachFromClient exAttached).2 = [ChannelEvent.detachEndpoint 5 7] ∧
    (DetachFromClient exAttached).1.channel = none ∧
    (DetachFromClient exAttached).1.local_id = 0 ∧
    (DetachFromClient exAttached).1.remote_id = 0 := by
  have h := (detachFromClient_spec exAttached rfl).1 rfl
  exact ⟨h.1, h.2.2.1, h.2.2.2.1, h.2.2.2.2.1⟩

/-- C7 counterexample: on a freshly constructed endpoint (client present,
never attached, so `channel` is null and the latch unset) `ReplaceClient`
with a different client returns `true` even though the endpoint is not
attached to a channel, so the return value is not "whether the endpoint is
channel-attached". -/
theorem replaceClient_attached_cex :
    ¬ (((ReplaceClient exUnattached 2 1).1 = true) ↔
       exUnattached.channel.isSome = true) := by
  decide

/-- C7 (amended): `ReplaceClient` swaps in the new client and port and
returns the negation of the terminal latch: `true` exactly when channel-side
teardown has not yet happened, `false` exactly when it already has; on an
endpoint satisfying the invariant this return value is `true` whenever a
channel is attached. -/
theorem replaceClient_spec (s : EndpointState) (c p : Nat)
    (hcl : s.client.isSome = true)
    (hdiff : some c ≠ s.client ∨ p ≠ s.client_port) :
    ReplaceClient s c p =
      (!s.is_detached_from_channel,
       { s with client := some c, client_port := p }) ∧
    ((ReplaceClient s c p).1 = false ↔ s.is_detached_from_channel = true) ∧
    (Invariant s → s.channel.isSome = true → (ReplaceClient s c p).1 = true) := by
  refine ⟨rfl, by simp [ReplaceClient], ?_⟩
  intro hinv hch
  rcases hlat : s.is_detached_from_channel
  · simp [ReplaceClient, hlat]
  · rw [hinv.2 hlat] at hch
    simp at hch

/-- C7 witness: replacing the client of the attached example endpoint swaps
client and port and returns `true` (teardown has not happened). -/
theorem replaceClient_spec_witness :
    ReplaceClient exAttached 2 1 =
      (true, { exAttached with client := some 2, client_port := 1 }) := by
  have h := (replaceClient_spec exAttached 2 1 rfl (by decide)).1
  rw [h]
  decide

/-- C8: during `AttachAndRun`'s drain, a failed channel write does not abort
the draining — exactly the whole queue, stamped with the new ids, is written
in order for every write-success oracle — and if no client is attached the
drain is followed by a `DetachEndpoint` call and the channel-side reset. -/
theorem attachAndRun_drain_spec (writeOk : MessageInTransit → Bool)
    (s : EndpointState) (ch lid rid : Nat) (hch : s.channel = none) :
    writeEvents (AttachAndRun writeOk s ch lid rid).2 =
      s.channel_message_queue.map (stampIds lid rid) ∧
    (s.client = none →
      (AttachAndRun writeOk s ch lid rid).2 =
        s.channel_message_queue.map
          (fun m => ChannelEvent.writeMessage (stampIds lid rid m)) ++
          [ChannelEvent.detachEndpoint lid rid] ∧
      (AttachAndRun writeOk s ch lid rid).1 =
        { s with channel := none, local_id := 0, remote_id := 0,
                 channel_message_queue := [],
                 is_detached_from_channel := true }) := by
  rcases hcl : s.client with _ | c
  · constructor
    · simp [AttachAndRun, hcl, drainQueue_eq_map, writeEvents_append,
            writeEvents_map_write, writeEvents]
    · intro _
      constructor
      · simp [AttachAndRun, hcl, drainQueue_eq_map]
      · simp [AttachAndRun, hcl, ResetChannelNoLock]
  · constructor
    · simp [AttachAndRun, hcl, drainQueue_eq_map, writeEvents_map_write]
    · intro h
      simp at h

/-- C8 witness: attaching the client-less queued endpoint with a channel
whose every write fails still writes both queued messages, in order, then
detaches and resets. -/
theorem attachAndRun_drain_spec_witness :
    writeEvents (AttachAndRun (fun _ => false) exQueued 9 5 7).2 =
      [stampIds 5 7 exMsg, stampIds 5 7 exMsg2] ∧
    (AttachAndRun (fun _ => false) exQueued 9 5 7).2 =
      [ChannelEvent.writeMessage (stampIds 5 7 exMsg),
       ChannelEvent.writeMessage (stampIds 5 7 exMsg2),
       ChannelEvent.detachEndpoint 5 7] := by
  have h := attachAndRun_drain_spec (fun _ => false) exQueued 9 5 7 rfl
  refine ⟨?_, ?_⟩
  · have h1 := h.1
    rw [h1]
    decide
  · have h2 := (h.2 rfl).1
    rw [h2]
    decide

/-- C9: both `DetachFromChannel` and `DetachFromClient` leave the channel
null, and an `OnReadMessage` arriving on an endpoint in such a state is a
no-op: the retry loop returns immediately with the message discarded and no
client call is made (the loop never mutates the endpoint's fields, so the
state is unchanged). -/
theorem post_detach_silence (s : EndpointState) (m : MessageInTransit)
    (acc₁ acc₂ : Bool) (rest₁ rest₂ : List ReadIter)
    (hcl : s.client.isSome = true) :
    onReadMessageLoop m (⟨(DetachFromChannel s).1, acc₁⟩ :: rest₁) =
      (ReadResult.dropped, []) ∧
    onReadMessageLoop m (⟨(DetachFromClient s).1, acc₂⟩ :: rest₂) =
      (ReadResult.dropped, []) := by
  have h1 : (DetachFromChannel s).1.channel = none := by
    rcases hc : s.channel with _ | ch <;>
      simp [DetachFromChannel, ResetChannelNoLock, hc]
  have h2 : (DetachFromClient s).1.channel = none := by
    rcases hc : s.channel with _ | ch <;>
      simp [DetachFromClient, ResetChannelNoLock, hc]
  exact ⟨onReadMessageLoop_cons_no_channel m _ rest₁ h1,
         onReadMessageLoop_cons_no_channel m _ rest₂ h2⟩

/-- C9 witness: a message arriving after the attached example endpoint is
detached from the channel is silently discarded. -/
theorem post_detach_silence_witness :
    onReadMessageLoop exMsg [⟨(DetachFromChannel exAttached).1, true⟩] =
      (ReadResult.dropped, []) :=
  (post_detach_silence exAttached exMsg true true [] [] rfl).1

/-- C10: on an endpoint that was detached from the channel (terminal latch
set, channel reference null), `EnqueueMessage` still returns `true` and
appends the message to the pending queue, making no channel call. -/
theorem enqueueMessage_after_detach (writeOk : MessageInTransit → Bool)
    (s : EndpointState) (m : MessageInTransit)
    (hd : s.is_detached_from_channel = true) (hch : s.channel = none) :
    EnqueueMessage writeOk s m =
      (true, { s with channel_message_queue := s.channel_message_queue ++ [m] },
       []) := by
  simp [EnqueueMessage, hch]

/-- C10 witness: enqueueing on the detached example endpoint buffers the
message and reports success. -/
theorem enqueueMessage_after_detach_witness :
    EnqueueMessage (fun _ => true) exDetached exMsg =
      (true, { exDetached with channel_message_queue := [exMsg] }, []) := by
  have h := enqueueMessage_after_detach (fun _ => true) exDetached exMsg rfl rfl
  rw [h]
  decide

end ChannelEndpoint
